import Mathlib

/-!
Verification development for the news-orchestrator repository.

The development shallowly embeds the intent-routing and dispatch engine:
the resilient Tool Client (src/tools.ts, function callEdge), the Router
normalization, the six Action Handlers and the Brief Synthesizer
(src/graph.ts, latest variant: doHeadlines, doTopic, doHistory, doLocal,
doSummarize, doBrief, buildGraph), and the HTTP boundary shaping
(src/server.ts, the /orchestrate handler).

JavaScript values that cross the tool boundary are modelled by a small
JSON datatype; JavaScript truthiness and the nullish-coalescing operator
are modelled explicitly.  External effects (the network fetch, the
language-model generation call) are passed in as function parameters, so
every run is a pure function of its inputs and of those oracles.
Handlers additionally return the ordered list of Tool Client calls they
issued, so that claims of the form "the Tool Client is never invoked"
and "article N is never summarized" are directly statable.
-/

set_option autoImplicit false

/-- JSON values, the payloads crossing the tool boundary.  Numbers are
modelled as integers: no claim depends on fractional values. -/
inductive Json where
  | null
  | bool (b : Bool)
  | num (n : Int)
  | str (s : String)
  | arr (elems : List Json)
  | obj (fields : List (String × Json))

/-- Field lookup on a JSON object; any non-object (including JS property
access on a number or string wrapper, which yields undefined for these
keys) gives none, matching the undefined result in JavaScript. -/
def Json.get : Json → String → Option Json
  | .obj fields, k => fields.lookup k
  | _, _ => none

/-- JavaScript truthiness of a JSON value. -/
def truthyJson : Json → Bool
  | .null => false
  | .bool b => b
  | .num n => n != 0
  | .str s => s != ""
  | .arr _ => true
  | .obj _ => true

/-- Truthiness of a field access such as json.ok: an absent field is
undefined, hence falsy. -/
def truthyField (j : Json) (k : String) : Bool :=
  match j.get k with
  | some v => truthyJson v
  | none => false

/-- Truthiness of an optional string (a JS string-or-undefined value such
as state.topic): undefined and the empty string are falsy. -/
def strTruthy : Option String → Bool
  | none => false
  | some s => s != ""

/-- Outcome of one fetch attempt against the edge service, as observed by
callEdge: the fetch promise rejects (timeout abort or connection error),
or a response arrives whose body is not JSON, or a JSON body is parsed. -/
inductive FetchResult where
  | fail (isAbort : Bool) (msg : String)
  | nonJson (status : Int) (text : String)
  | json (body : Json)

/-- The EdgeOut envelope returned by callEdge (src/tools.ts).  The source
type also declares an unused optional tool field that callEdge never
sets; it is omitted. -/
structure EdgeOut where
  ok : Bool
  result : Option Json := none
  error : Option String := none
  text : Option String := none

/-- Error text of the ok=false branch: json.error or the fixed fallback,
via JS truthiness (an empty-string error falls back).  The tool contract
makes error a text field, so non-string error values are out of scope
and also fall back. -/
def errTextOf (j : Json) : String :=
  match j.get "error" with
  | some (.str s) => if s = "" then "Edge returned ok=false" else s
  | _ => "Edge returned ok=false"

/-- The ok=true unwrap json.result or-else json: the nullish-coalescing
operator replaces only an absent or null result field with the whole
parsed object. -/
def resultOf (j : Json) : Json :=
  match j.get "result" with
  | some .null => j
  | some v => v
  | none => j

/-- Message of the TypeError raised when the parsed body is JSON null and
callEdge reads json.ok; the error is caught by the surrounding catch and
hence follows the transport-retry path. -/
def nullBodyErrMsg : String := "TypeError: Cannot read properties of null"

/-- Whether an attempt outcome follows the catch path of callEdge: the
fetch promise rejected (timeout abort or connection error), or the body
parsed to JSON null so the json.ok read raised a TypeError inside the
try block.  These are exactly the outcomes the source retries while the
budget lasts. -/
def retriable : FetchResult → Bool
  | .fail _ _ => true
  | .json .null => true
  | _ => false

/-- The envelope a single attempt settles to when no retry happens: the
non-JSON diagnostic, the ok=false pass-through, the ok=true unwrap, or
the catch branch with an exhausted budget (Edge timeout on an abort,
String(e) otherwise). -/
def attemptEnvelope : FetchResult → EdgeOut
  | .fail isAbort msg =>
      { ok := false, error := some (if isAbort then "Edge timeout" else msg) }
  | .nonJson status txt =>
      { ok := false,
        error := some ("Edge non-JSON (" ++ toString status ++ ")"),
        text := some txt }
  | .json .null => { ok := false, error := some nullBodyErrMsg }
  | .json j =>
      if truthyField j "ok" then { ok := true, result := some (resultOf j) }
      else { ok := false, error := some (errTextOf j) }

/-- Shallow embedding of callEdge (src/tools.ts).  fetchAt gives the
outcome of each successive fetch attempt; the first argument is the
index of the next attempt; the second is the remaining retry budget (the
source default is 2, giving at most 3 total attempts).  Returns the
envelope together with the number of fetch attempts actually performed,
so retry claims can speak about attempt counts.  The recursion mirrors
the source recursion callEdge(query, extra, tries - 1) in the catch
branch: only a retriable outcome with budget left recurses. -/
def callEdgeAux (fetchAt : Nat → FetchResult) : Nat → Nat → EdgeOut × Nat
  | attempt, 0 => (attemptEnvelope (fetchAt attempt), 1)
  | attempt, t + 1 =>
    if retriable (fetchAt attempt) then
      let r := callEdgeAux fetchAt (attempt + 1) t
      (r.1, r.2 + 1)
    else (attemptEnvelope (fetchAt attempt), 1)

/-- The envelope produced by a logical callEdge invocation. -/
def callEdge (fetchAt : Nat → FetchResult) (tries : Nat) : EdgeOut :=
  (callEdgeAux fetchAt 0 tries).1

/-- The number of fetch attempts a logical callEdge invocation performs. -/
def callEdgeAttempts (fetchAt : Nat → FetchResult) (tries : Nat) : Nat :=
  (callEdgeAux fetchAt 0 tries).2

example :
    callEdge (fun _ => .fail true "boom") 2 =
      { ok := false, error := some "Edge timeout" } := rfl

example : callEdgeAttempts (fun _ => .fail true "boom") 2 = 3 := rfl

example :
    callEdge (fun _ => .json (.obj [("ok", .bool true), ("result", .str "x")])) 2 =
      { ok := true, result := some (.str "x") } := rfl

example :
    callEdge (fun _ => .json (.obj [("ok", .bool true)])) 2 =
      { ok := true, result := some (.obj [("ok", .bool true)]) } := rfl

/-- The seven intent values of the Router enumeration (src/state.ts and
the zod schema in src/graph.ts). -/
inductive Intent where
  | HEADLINES
  | TOPIC
  | BRIEF
  | HISTORY
  | LOCAL
  | SUMMARIZE
  | UNKNOWN
  deriving DecidableEq, Repr

/-- The request payload of one orchestration run (src/state.ts). -/
structure OrchestratorInput where
  query : String
  session_id : Option String
  deriving DecidableEq, Repr

/-- A source summary produced during brief synthesis (src/state.ts). -/
structure SourceSummary where
  url : String
  summary : String
  deriving DecidableEq, Repr

/-- The graph state (the Annotation.Root channels of src/graph.ts, latest
variant, which includes the max channel).  All channels use the replace
reducer, so a handler update overwrites exactly the fields it returns. -/
structure GraphState where
  input : OrchestratorInput
  intent : Option Intent
  topic : Option String
  city : Option String
  dateISO : Option String
  url : Option String
  max : Option Int
  headlines : Option Json
  topicArticles : Option Json
  summaries : Option (List SourceSummary)
  brief : Option String
  historyEvents : Option Json
  followupQuestion : Option String
  final : Option Json

/-- The state a run starts from: only input is populated. -/
def initState (inp : OrchestratorInput) : GraphState :=
  { input := inp, intent := none, topic := none, city := none,
    dateISO := none, url := none, max := none, headlines := none,
    topicArticles := none, summaries := none, brief := none,
    historyEvents := none, followupQuestion := none, final := none }

/-- The raw structured-extraction output of the Router language-model
call, before normalization: every slot is nullable, and the intent field
is modelled as optional so that the source normalization
out.intent or-else HEADLINES is meaningful. -/
structure RawRouterOut where
  intent : Option Intent
  topic : Option String
  city : Option String
  dateISO : Option String
  url : Option String
  max : Option Int

/-- The router node (src/graph.ts, latest variant): a nullish intent is
replaced by HEADLINES, and null slots become absent.  Note that the
or-else applies only to a nullish intent: a raw UNKNOWN value is kept. -/
def routerNode (raw : RawRouterOut) (s : GraphState) : GraphState :=
  { s with
    intent := some (raw.intent.getD .HEADLINES),
    topic := raw.topic,
    city := raw.city,
    dateISO := raw.dateISO,
    url := raw.url,
    max := raw.max }

/-- One Tool Client invocation: the query string and the extra fields
merged into the request body by callEdge.  Extra entries whose value
would be undefined in the source are omitted, matching JSON.stringify. -/
structure ToolCallRec where
  query : String
  extra : List (String × Json)

/-- The network backend a run sees: each Tool Client call is resolved to
an EdgeOut envelope from the query string and extra fields.  This is the
resolved behaviour of callEdge; edgeFromFetch below connects it to the
retrying transport layer. -/
def EdgeCall : Type := String → List (String × Json) → EdgeOut

/-- The free-text generation capability: system message and user message
to generated content. -/
def LLMGen : Type := String → String → String

/-- Lifts a per-call fetch oracle to the EdgeCall abstraction through the
real callEdge transport with the source retry budget of 2. -/
def edgeFromFetch (fetch : String → List (String × Json) → Nat → FetchResult) :
    EdgeCall :=
  fun q extra => callEdge (fetch q extra) 2

/-- Dispatch one ToolCallRec against the backend, mirroring
callEdge(query, extra). -/
def invokeTool (edge : EdgeCall) (c : ToolCallRec) : EdgeOut :=
  edge c.query c.extra

/-- tools.topHeadlines (src/tools.ts): query "top headlines" with an
optional max field (an undefined max is dropped from the body). -/
def topHeadlinesCall (maxOpt : Option Int) : ToolCallRec :=
  ⟨"top headlines", match maxOpt with
    | some m => [("max", .num m)]
    | none => []⟩

/-- tools.topicNews (src/tools.ts). -/
def topicNewsCall (topic : String) (maxResults : Int) : ToolCallRec :=
  ⟨"latest on " ++ topic, [("max_results", .num maxResults)]⟩

/-- tools.onThisDay (src/tools.ts); the conditional uses JS truthiness,
so an empty-string date also falls back to "major events today". -/
def onThisDayCall (iso : Option String) : ToolCallRec :=
  ⟨if strTruthy iso then "events on " ++ iso.getD "" else "major events today", []⟩

/-- tools.aroundYou (src/tools.ts); an undefined session_id is dropped
from the body by JSON.stringify. -/
def aroundYouCall (city : Option String) (maxResults : Int)
    (session : Option String) : ToolCallRec :=
  ⟨if strTruthy city then "news in " ++ city.getD "" else "news around me",
   ("max_results", Json.num maxResults) ::
     (match session with
      | some sid => [("session_id", .str sid)]
      | none => [])⟩

/-- tools.summarizeUrl (src/tools.ts). -/
def summarizeUrlCall (url : String) : ToolCallRec :=
  ⟨"summarize " ++ url, []⟩

/-- The error final payload a handler substitutes on ok=false:
the object with field error equal to resp.error (an undefined error
would be dropped by JSON serialization). -/
def errorPayload (e : Option String) : Json :=
  .obj (match e with
    | some s => [("error", .str s)]
    | none => [])

/-- resp.result or-dot articles: the articles field of the unwrapped
result, as stored in the headlines and topicArticles channels. -/
def articlesField (r : Option Json) : Option Json :=
  r.bind (fun j => j.get "articles")


/-- doHeadlines (src/graph.ts, latest variant): always calls the Tool
Client; on ok=false substitutes the error payload, otherwise stores the
articles field and the whole result. -/
def doHeadlines (edge : EdgeCall) (s : GraphState) :
    GraphState × List ToolCallRec :=
  let c := topHeadlinesCall s.max
  let resp := invokeTool edge c
  if !resp.ok then ({ s with final := some (errorPayload resp.error) }, [c])
  else
    ({ s with headlines := articlesField resp.result, final := resp.result }, [c])

/-- doTopic (src/graph.ts, latest variant): a falsy topic slot (absent or
empty) yields the fixed follow-up with no tool call; otherwise one
topicNews call with max defaulting to 10 via nullish coalescing. -/
def doTopic (edge : EdgeCall) (s : GraphState) :
    GraphState × List ToolCallRec :=
  if !strTruthy s.topic then
    ({ s with followupQuestion := some "Which topic?" }, [])
  else
    let c := topicNewsCall (s.topic.getD "") (s.max.getD 10)
    let resp := invokeTool edge c
    if !resp.ok then ({ s with final := some (errorPayload resp.error) }, [c])
    else
      ({ s with topicArticles := articlesField resp.result,
                final := resp.result }, [c])

/-- doHistory (src/graph.ts, latest variant). -/
def doHistory (edge : EdgeCall) (s : GraphState) :
    GraphState × List ToolCallRec :=
  let c := onThisDayCall s.dateISO
  let resp := invokeTool edge c
  if !resp.ok then ({ s with final := some (errorPayload resp.error) }, [c])
  else ({ s with historyEvents := resp.result, final := resp.result }, [c])

/-- Whether the unwrapped result of a local call signals that the edge
service itself needs a follow-up (resp.result or-dot need_followup,
via JS truthiness). -/
def resultNeedFollowup (r : Option Json) : Bool :=
  match r with
  | some j => truthyField j "need_followup"
  | none => false

/-- The follow-up question carried inside a local result; the tool
contract makes question a text field, so only a string value is
surfaced. -/
def resultQuestion (r : Option Json) : Option String :=
  r.bind (fun j =>
    match j.get "question" with
    | some (.str q) => some q
    | _ => none)

/-- doLocal (src/graph.ts, latest variant): no required slot; after a
successful call, a need_followup flag in the result re-derives a
follow-up instead of a final payload. -/
def doLocal (edge : EdgeCall) (s : GraphState) :
    GraphState × List ToolCallRec :=
  let c := aroundYouCall s.city (s.max.getD 8) s.input.session_id
  let resp := invokeTool edge c
  if !resp.ok then ({ s with final := some (errorPayload resp.error) }, [c])
  else if resultNeedFollowup resp.result then
    ({ s with followupQuestion := resultQuestion resp.result }, [c])
  else ({ s with final := resp.result }, [c])

/-- doSummarize (src/graph.ts, latest variant): a falsy url slot yields
the fixed follow-up with no tool call; otherwise the unwrapped result is
passed through unchanged as the final payload. -/
def doSummarize (edge : EdgeCall) (s : GraphState) :
    GraphState × List ToolCallRec :=
  if !strTruthy s.url then
    ({ s with followupQuestion := some "Please share the article link (URL)." }, [])
  else
    let c := summarizeUrlCall (s.url.getD "")
    let resp := invokeTool edge c
    if !resp.ok then ({ s with final := some (errorPayload resp.error) }, [c])
    else ({ s with final := resp.result }, [c])

/-- news.result or-dot articles or-else the empty list, restricted to the
tool contract under which an articles field, when present and non-null,
is an array. -/
def articlesOf (r : Option Json) : List Json :=
  match articlesField r with
  | some (.arr xs) => xs
  | _ => []

/-- The url of one fetched article as tested by the guard
"if (!a?.url) return null": a null article, an absent url and an empty
url are all skipped (JS truthiness); the contract makes url a text
field. -/
def articleUrl (a : Json) : Option String :=
  match a.get "url" with
  | some (.str u) => if u = "" then none else some u
  | _ => none

/-- s.result or-dot summary or-else the empty string, for a summarize
result whose summary field follows the tool contract (text). -/
def summaryOf (r : Option Json) : String :=
  match r.bind (fun j => j.get "summary") with
  | some (.str s) => s
  | _ => ""

/-- The fan-out stage of doBrief: each of the capped articles is mapped
to null (no url, or failed summarize call) or to its source summary, and
the nulls are filtered out, preserving article order; this is the
Promise.all map followed by filter(Boolean). -/
def briefSummaries (edge : EdgeCall) (arts : List Json) : List SourceSummary :=
  arts.filterMap (fun a =>
    match articleUrl a with
    | none => none
    | some u =>
        let resp := invokeTool edge (summarizeUrlCall u)
        if !resp.ok then none
        else some ⟨u, summaryOf resp.result⟩)

/-- The summarize calls the fan-out stage issues: one per capped article
with a truthy url, in article order. -/
def briefSummaryCalls (arts : List Json) : List ToolCallRec :=
  arts.filterMap (fun a => (articleUrl a).map summarizeUrlCall)

/-- The character class removed by the JS String.prototype.trim call
(the common whitespace code points; exotic Unicode space separators are
out of scope for every claim). -/
def jsWhitespace (c : Char) : Bool :=
  c = ' ' || c = '\t' || c = '\n' || c = '\r' || c = '\x0b' || c = '\x0c'

/-- The JS String.prototype.trim call: surrounding whitespace removed. -/
def jsTrim (s : String) : String :=
  String.mk (((s.data.dropWhile jsWhitespace).reverse.dropWhile jsWhitespace).reverse)

/-- The JS String.prototype.slice(0, n) truncation, at character
granularity. -/
def sliceChars (s : String) (n : Nat) : String :=
  String.mk (s.data.take n)

/-- The aggregation-stage bullet block: each surviving summary becomes a
dash bullet, the bullets are joined by newlines, and the block is
truncated to the 15000-character budget. -/
def briefItems (summaries : List SourceSummary) : String :=
  sliceChars (String.intercalate "\n" (summaries.map (fun s => "- " ++ s.summary))) 15000

/-- The system instruction of the brief generation call (content is
irrelevant to every claim; kept as a fixed constant). -/
def briefSystemPrompt : String :=
  "Create a concise 7-9 bullet executive brief for Indian readers. Keep dates & numbers exact. End with: What to watch."

/-- The user message of the brief generation call. -/
def briefUserPrompt (topic items : String) : String :=
  "Topic: " ++ topic ++ "\nSummaries:\n" ++ items

/-- The final payload of a successful brief run.  Note the brief field
carries the raw generation content; the trimmed copy goes only to the
brief state channel. -/
def briefFinalJson (topic : String) (arts : List Json) (content : String) : Json :=
  .obj [("type", .str "multi_source_brief"), ("topic", .str topic),
        ("sources", .arr arts), ("brief", .str content)]

/-- doBrief (src/graph.ts, latest variant): missing topic yields the
brief follow-up; a failed topic fetch short-circuits to the error
payload; otherwise the first three articles are summarized fan-out
style, aggregated into a truncated bullet block, and synthesized. -/
def doBrief (edge : EdgeCall) (llm : LLMGen) (s : GraphState) :
    GraphState × List ToolCallRec :=
  if !strTruthy s.topic then
    ({ s with followupQuestion := some "Brief on which topic?" }, [])
  else
    let t := s.topic.getD ""
    let c := topicNewsCall t (s.max.getD 8)
    let news := invokeTool edge c
    if !news.ok then ({ s with final := some (errorPayload news.error) }, [c])
    else
      let arts := (articlesOf news.result).take 3
      let summaries := briefSummaries edge arts
      let items := briefItems summaries
      let content := llm briefSystemPrompt (briefUserPrompt t items)
      ({ s with
          summaries := some summaries,
          brief := some (jsTrim content),
          final := some (briefFinalJson t arts content) },
       c :: briefSummaryCalls arts)

/-- The terminal handler nodes of the dispatch state machine. -/
inductive Node where
  | nHeadlines
  | nTopic
  | nHistory
  | nLocal
  | nSummarize
  | nBrief
  deriving DecidableEq, Repr

/-- The conditional-edge routing function of buildGraph: the switch over
s.intent whose default branch (UNKNOWN, or an unset intent) selects the
headlines node. -/
def routeIntent : Option Intent → Node
  | some .HEADLINES => .nHeadlines
  | some .TOPIC => .nTopic
  | some .HISTORY => .nHistory
  | some .LOCAL => .nLocal
  | some .SUMMARIZE => .nSummarize
  | some .BRIEF => .nBrief
  | _ => .nHeadlines

/-- One full run of the compiled graph: START to router, the conditional
edge to exactly one handler, handler to END.  Returns the terminal state
together with the ordered Tool Client calls of the run. -/
def runGraph (raw : RawRouterOut) (edge : EdgeCall) (llm : LLMGen)
    (inp : OrchestratorInput) : GraphState × List ToolCallRec :=
  let s1 := routerNode raw (initState inp)
  match routeIntent s1.intent with
  | .nHeadlines => doHeadlines edge s1
  | .nTopic => doTopic edge s1
  | .nHistory => doHistory edge s1
  | .nLocal => doLocal edge s1
  | .nSummarize => doSummarize edge s1
  | .nBrief => doBrief edge llm s1

/-- The JSON response the /orchestrate boundary ships (src/server.ts):
a truthy followupQuestion yields the follow-up shape, otherwise the
final shape carrying result.intent as tool and result.final as result. -/
inductive ServerResponse where
  | followup (question : String)
  | final (tool : Option Intent) (result : Option Json)

/-- The boundary shaping of a terminal graph state. -/
def serverRespond (s : GraphState) : ServerResponse :=
  if strTruthy s.followupQuestion then .followup (s.followupQuestion.getD "")
  else .final s.intent s.final

/-- The attempt count of callEdgeAux is bounded by the retry budget plus
one: a budget of 2 gives at most 3 fetch attempts. -/
theorem callEdgeAux_snd_le (f : Nat → FetchResult) :
    ∀ (t a : Nat), (callEdgeAux f a t).2 ≤ t + 1 := by
  intro t
  induction t with
  | zero => intro a; simp [callEdgeAux]
  | succ t ih =>
    intro a
    by_cases h : retriable (f a)
    · simpa [callEdgeAux, h] using Nat.succ_le_succ (ih (a + 1))
    · simp [callEdgeAux, h]

/-- C1: a transport-level failure (timeout abort or connection error) is
retried immediately up to 2 additional attempts, so a logical call makes
at most 3 fetch attempts; a response that arrives with ok=false, and a
non-JSON response body, are settled on the first attempt with no retry;
and when all 3 attempts fail at transport level the call returns the
value ok=false with error "Edge timeout" (on an abort) or the underlying
error text, rather than raising. -/
theorem C1_callEdge_retry_policy (f : Nat → FetchResult) :
    callEdgeAttempts f 2 ≤ 3
    ∧ (∀ st tx, f 0 = .nonJson st tx →
        callEdgeAttempts f 2 = 1
        ∧ callEdge f 2 = { ok := false,
                           error := some ("Edge non-JSON (" ++ toString st ++ ")"),
                           text := some tx })
    ∧ (∀ j, f 0 = .json j → j ≠ .null → truthyField j "ok" = false →
        callEdgeAttempts f 2 = 1
        ∧ callEdge f 2 = { ok := false, error := some (errTextOf j) })
    ∧ (∀ a0 m0 a1 m1 a2 m2,
        f 0 = .fail a0 m0 → f 1 = .fail a1 m1 → f 2 = .fail a2 m2 →
        callEdgeAttempts f 2 = 3
        ∧ callEdge f 2 = { ok := false,
                           error := some (if a2 then "Edge timeout" else m2) }) := by
  refine ⟨callEdgeAux_snd_le f 2 0, ?_, ?_, ?_⟩
  · intro st tx h
    constructor <;>
      simp [callEdgeAttempts, callEdge, callEdgeAux, h, retriable, attemptEnvelope]
  · intro j h hnull hok
    have hr : retriable (.json j) = false := by
      cases j <;> simp_all [retriable]
    have he : attemptEnvelope (.json j) =
        { ok := false, error := some (errTextOf j) } := by
      cases j <;> simp_all [attemptEnvelope, truthyField, Json.get]
    constructor <;>
      simp [callEdgeAttempts, callEdge, callEdgeAux, h, hr, he]
  · intro a0 m0 a1 m1 a2 m2 h0 h1 h2
    constructor <;>
      simp [callEdgeAttempts, callEdge, callEdgeAux, h0, h1, h2, retriable,
        attemptEnvelope]

/-- Concrete instantiation of the retry-policy theorem: a backend whose
every attempt is a timeout abort yields the Edge timeout envelope after
exactly 3 attempts. -/
theorem C1_callEdge_retry_policy_witness :
    callEdgeAttempts (fun _ => .fail true "aborted") 2 = 3
    ∧ callEdge (fun _ => .fail true "aborted") 2 =
        { ok := false, error := some "Edge timeout" } :=
  (C1_callEdge_retry_policy (fun _ => .fail true "aborted")).2.2.2
    true "aborted" true "aborted" true "aborted" rfl rfl rfl

/-- C9: a JSON response with a truthy ok but no result field is unwrapped
to the entire parsed object itself, and more generally every ok=true
envelope carries a present result. -/
theorem C9_ok_result_fallback (f : Nat → FetchResult) :
    (∀ fields, f 0 = .json (.obj fields) →
        truthyField (.obj fields) "ok" = true →
        (Json.obj fields).get "result" = none →
        callEdge f 2 = { ok := true, result := some (.obj fields) })
    ∧ (∀ j, f 0 = .json j → truthyField j "ok" = true →
        ∃ r, callEdge f 2 = { ok := true, result := some r }) := by
  constructor
  · intro fields h hok hres
    have : resultOf (.obj fields) = .obj fields := by simp [resultOf, hres]
    simp [callEdge, callEdgeAux, h, retriable, attemptEnvelope, hok, this]
  · intro j h hok
    have hnull : j ≠ .null := by
      intro he; rw [he] at hok; simp [truthyField, Json.get] at hok
    have hr : retriable (.json j) = false := by
      cases j <;> simp_all [retriable]
    refine ⟨resultOf j, ?_⟩
    have he : attemptEnvelope (.json j) =
        { ok := true, result := some (resultOf j) } := by
      cases j <;> simp_all [attemptEnvelope]
    simp [callEdge, callEdgeAux, h, hr, he]

/-- Concrete instantiation of the result-fallback theorem: an ok=true
body with no result field is returned whole as the result. -/
theorem C9_ok_result_fallback_witness :
    callEdge (fun _ => .json (.obj [("ok", .bool true), ("extra", .num 7)])) 2 =
      { ok := true, result := some (.obj [("ok", .bool true), ("extra", .num 7)]) } :=
  (C9_ok_result_fallback
      (fun _ => .json (.obj [("ok", .bool true), ("extra", .num 7)]))).1
    [("ok", .bool true), ("extra", .num 7)] rfl rfl rfl

/-- doHeadlines touches only the headlines and final channels: the
intent and followupQuestion channels pass through unchanged. -/
theorem doHeadlines_preserves (edge : EdgeCall) (s : GraphState) :
    (doHeadlines edge s).1.followupQuestion = s.followupQuestion
    ∧ (doHeadlines edge s).1.intent = s.intent := by
  simp only [doHeadlines]
  split <;> simp

/-- A Router output of UNKNOWN used as the counterexample run. -/
def c2raw : RawRouterOut := ⟨some .UNKNOWN, none, none, none, none, none⟩

/-- A backend whose every call succeeds with an empty articles list. -/
def c2edge : EdgeCall :=
  fun _ _ => { ok := true, result := some (.obj [("articles", .arr [])]) }

/-- The concrete request of the counterexample run. -/
def c2inp : OrchestratorInput := ⟨"gibberish", none⟩

/-- C2 fails on the code: with a raw Router intent of UNKNOWN, the
intent reaching dispatch is still UNKNOWN (not normalized to HEADLINES),
the conditional edge nevertheless selects the HEADLINES handler through
its default branch, and the boundary result of the run carries tool
UNKNOWN, not tool HEADLINES. -/
theorem C2_counterexample :
    (routerNode c2raw (initState c2inp)).intent = some Intent.UNKNOWN
    ∧ routeIntent (routerNode c2raw (initState c2inp)).intent = .nHeadlines
    ∧ serverRespond (runGraph c2raw c2edge (fun _ _ => "") c2inp).1 =
        .final (some .UNKNOWN) (some (.obj [("articles", .arr [])]))
    ∧ some Intent.UNKNOWN ≠ some Intent.HEADLINES :=
  ⟨rfl, rfl, rfl, by decide⟩

/-- C2 amended: a raw UNKNOWN intent is dispatched to the HEADLINES
handler through the default branch of the conditional edge, but the
intent value is not rewritten — the run state and the boundary result
still carry UNKNOWN; only a nullish raw intent is normalized to
HEADLINES before dispatch. -/
theorem C2_unknown_dispatch (raw : RawRouterOut) (edge : EdgeCall)
    (llm : LLMGen) (inp : OrchestratorInput) :
    (raw.intent = some .UNKNOWN →
        routeIntent (routerNode raw (initState inp)).intent = .nHeadlines
        ∧ runGraph raw edge llm inp = doHeadlines edge (routerNode raw (initState inp))
        ∧ (runGraph raw edge llm inp).1.intent = some .UNKNOWN
        ∧ serverRespond (runGraph raw edge llm inp).1 =
            .final (some .UNKNOWN) (runGraph raw edge llm inp).1.final)
    ∧ (raw.intent = none →
        (routerNode raw (initState inp)).intent = some .HEADLINES
        ∧ routeIntent (routerNode raw (initState inp)).intent = .nHeadlines
        ∧ (runGraph raw edge llm inp).1.intent = some .HEADLINES) := by
  constructor
  · intro h
    have hrun : runGraph raw edge llm inp =
        doHeadlines edge (routerNode raw (initState inp)) := by
      simp [runGraph, routerNode, h, routeIntent]
    have hint : (runGraph raw edge llm inp).1.intent = some .UNKNOWN := by
      rw [hrun]
      rw [(doHeadlines_preserves edge (routerNode raw (initState inp))).2]
      simp [routerNode, h]
    refine ⟨by simp [routerNode, h, routeIntent], hrun, hint, ?_⟩
    have hfq : (runGraph raw edge llm inp).1.followupQuestion = none := by
      rw [hrun]
      rw [(doHeadlines_preserves edge (routerNode raw (initState inp))).1]
      simp [routerNode, initState]
    simp [serverRespond, hfq, strTruthy, hint]
  · intro h
    have hrun : runGraph raw edge llm inp =
        doHeadlines edge (routerNode raw (initState inp)) := by
      simp [runGraph, routerNode, h, routeIntent]
    refine ⟨by simp [routerNode, h], by simp [routerNode, h, routeIntent], ?_⟩
    rw [hrun]
    rw [(doHeadlines_preserves edge (routerNode raw (initState inp))).2]
    simp [routerNode, h]

/-- Concrete instantiation of the amended UNKNOWN-dispatch theorem at the
counterexample run. -/
theorem C2_unknown_dispatch_witness :
    routeIntent (routerNode c2raw (initState c2inp)).intent = .nHeadlines
    ∧ (runGraph c2raw c2edge (fun _ _ => "") c2inp).1.intent = some .UNKNOWN :=
  ⟨((C2_unknown_dispatch c2raw c2edge (fun _ _ => "") c2inp).1 rfl).1,
   ((C2_unknown_dispatch c2raw c2edge (fun _ _ => "") c2inp).1 rfl).2.2.1⟩

/-- C3: a run classified TOPIC with no extracted topic slot issues no
Tool Client call at all and terminates as the follow-up "Which topic?"
with no final payload. -/
theorem C3_topic_missing_followup (raw : RawRouterOut) (edge : EdgeCall)
    (llm : LLMGen) (inp : OrchestratorInput)
    (hi : raw.intent = some .TOPIC) (ht : raw.topic = none) :
    (runGraph raw edge llm inp).2 = []
    ∧ (runGraph raw edge llm inp).1.followupQuestion = some "Which topic?"
    ∧ (runGraph raw edge llm inp).1.final = none
    ∧ serverRespond (runGraph raw edge llm inp).1 = .followup "Which topic?" := by
  have hrun : runGraph raw edge llm inp =
      doTopic edge (routerNode raw (initState inp)) := by
    simp [runGraph, routerNode, hi, routeIntent]
  have hdo : doTopic edge (routerNode raw (initState inp)) =
      ({ routerNode raw (initState inp) with
          followupQuestion := some "Which topic?" }, []) := by
    simp [doTopic, routerNode, ht, strTruthy]
  rw [hrun, hdo]
  refine ⟨rfl, rfl, by simp [routerNode, initState], ?_⟩
  simp [serverRespond, strTruthy]

/-- Concrete instantiation of the TOPIC follow-up theorem. -/
theorem C3_topic_missing_followup_witness :
    (runGraph ⟨some .TOPIC, none, none, none, none, none⟩ c2edge
        (fun _ _ => "") c2inp).2 = []
    ∧ serverRespond (runGraph ⟨some .TOPIC, none, none, none, none, none⟩
        c2edge (fun _ _ => "") c2inp).1 = .followup "Which topic?" :=
  ⟨(C3_topic_missing_followup ⟨some .TOPIC, none, none, none, none, none⟩
      c2edge (fun _ _ => "") c2inp rfl rfl).1,
   (C3_topic_missing_followup ⟨some .TOPIC, none, none, none, none, none⟩
      c2edge (fun _ _ => "") c2inp rfl rfl).2.2.2⟩

/-- C7: a SUMMARIZE run with a valid url slot whose tool response body is
ok=true with result containing summary X passes the summary object
through to the final payload unchanged, and the boundary ships it as the
run result. -/
theorem C7_summarize_roundtrip (raw : RawRouterOut)
    (fetch : String → List (String × Json) → Nat → FetchResult)
    (llm : LLMGen) (inp : OrchestratorInput) (u X : String)
    (hi : raw.intent = some .SUMMARIZE) (hu : raw.url = some u) (hne : u ≠ "")
    (hresp : fetch ("summarize " ++ u) [] 0 =
      .json (.obj [("ok", .bool true), ("result", .obj [("summary", .str X)])])) :
    (runGraph raw (edgeFromFetch fetch) llm inp).1.final =
      some (.obj [("summary", .str X)])
    ∧ serverRespond (runGraph raw (edgeFromFetch fetch) llm inp).1 =
        .final (some .SUMMARIZE) (some (.obj [("summary", .str X)])) := by
  have hr : retriable
      (.json (.obj [("ok", .bool true), ("result", .obj [("summary", .str X)])])) =
      false := rfl
  have he : attemptEnvelope
      (.json (.obj [("ok", .bool true), ("result", .obj [("summary", .str X)])])) =
      { ok := true, result := some (.obj [("summary", .str X)]) } := rfl
  have hcall : invokeTool (edgeFromFetch fetch) (summarizeUrlCall u) =
      { ok := true, result := some (.obj [("summary", .str X)]) } := by
    simp [invokeTool, edgeFromFetch, summarizeUrlCall, callEdge, callEdgeAux,
      hresp, hr, he]
  have hrun : runGraph raw (edgeFromFetch fetch) llm inp =
      doSummarize (edgeFromFetch fetch) (routerNode raw (initState inp)) := by
    simp [runGraph, routerNode, hi, routeIntent]
  have hs1url : (routerNode raw (initState inp)).url = some u := by
    simp [routerNode, hu]
  have hdo : doSummarize (edgeFromFetch fetch) (routerNode raw (initState inp)) =
      ({ routerNode raw (initState inp) with
          final := some (.obj [("summary", .str X)]) },
       [summarizeUrlCall u]) := by
    simp [doSummarize, hs1url, strTruthy, hne, hcall]
  rw [hrun, hdo]
  refine ⟨rfl, ?_⟩
  simp [serverRespond, routerNode, initState, strTruthy, hi]

/-- Concrete instantiation of the summarize round-trip theorem. -/
theorem C7_summarize_roundtrip_witness :
    (runGraph ⟨some .SUMMARIZE, none, none, none, some "https://x.y/a", none⟩
        (edgeFromFetch (fun _ _ _ =>
          .json (.obj [("ok", .bool true),
                       ("result", .obj [("summary", .str "X")])])))
        (fun _ _ => "") c2inp).1.final =
      some (.obj [("summary", .str "X")]) :=
  (C7_summarize_roundtrip ⟨some .SUMMARIZE, none, none, none, some "https://x.y/a", none⟩
    (fun _ _ _ => .json (.obj [("ok", .bool true),
                               ("result", .obj [("summary", .str "X")])]))
    (fun _ _ => "") c2inp "https://x.y/a" "X" rfl rfl (by decide) rfl).1

/-- A Router output of LOCAL used for the C6 counterexample run. -/
def c6raw : RawRouterOut := ⟨some .LOCAL, none, none, none, none, none⟩

/-- A backend whose local result itself asks for a follow-up. -/
def c6edge : EdgeCall :=
  fun _ _ => { ok := true,
               result := some (.obj [("need_followup", .bool true),
                                     ("question", .str "Which city?")]) }

/-- C6 fails on the code as stated: the LOCAL handler makes a Tool Client
call and still returns a follow-up, not a final payload, when the tool
result signals need_followup — so a handler that makes a tool call does
not always return a final payload. -/
theorem C6_counterexample :
    (runGraph c6raw c6edge (fun _ _ => "") c2inp).2 =
      [aroundYouCall none 8 none]
    ∧ ([aroundYouCall none 8 none] : List ToolCallRec) ≠ []
    ∧ serverRespond (runGraph c6raw c6edge (fun _ _ => "") c2inp).1 =
        .followup "Which city?"
    ∧ (runGraph c6raw c6edge (fun _ _ => "") c2inp).1.final = none :=
  ⟨rfl, fun h => List.noConfusion h, rfl, rfl⟩


/-- Branch equation: doHeadlines on a successful call. -/
theorem doHeadlines_ok (edge : EdgeCall) (s : GraphState)
    (h1 : (invokeTool edge (topHeadlinesCall s.max)).ok = true) :
    doHeadlines edge s =
      ({ s with headlines := articlesField (invokeTool edge (topHeadlinesCall s.max)).result,
                final := (invokeTool edge (topHeadlinesCall s.max)).result },
       [topHeadlinesCall s.max]) := by
  simp [doHeadlines, h1]

/-- Branch equation: doHeadlines on a failed call substitutes the error
payload. -/
theorem doHeadlines_err (edge : EdgeCall) (s : GraphState)
    (h1 : (invokeTool edge (topHeadlinesCall s.max)).ok = false) :
    doHeadlines edge s =
      ({ s with final := some (errorPayload (invokeTool edge (topHeadlinesCall s.max)).error) },
       [topHeadlinesCall s.max]) := by
  simp [doHeadlines, h1]

/-- Branch equation: doTopic with a falsy topic slot. -/
theorem doTopic_followup (edge : EdgeCall) (s : GraphState)
    (h : strTruthy s.topic = false) :
    doTopic edge s = ({ s with followupQuestion := some "Which topic?" }, []) := by
  simp [doTopic, h]

/-- Branch equation: doTopic on a successful call. -/
theorem doTopic_ok (edge : EdgeCall) (s : GraphState)
    (h : strTruthy s.topic = true)
    (h1 : (invokeTool edge (topicNewsCall (s.topic.getD "") (s.max.getD 10))).ok = true) :
    doTopic edge s =
      ({ s with topicArticles := articlesField (invokeTool edge (topicNewsCall (s.topic.getD "") (s.max.getD 10))).result,
                final := (invokeTool edge (topicNewsCall (s.topic.getD "") (s.max.getD 10))).result },
       [topicNewsCall (s.topic.getD "") (s.max.getD 10)]) := by
  simp [doTopic, h, h1]

/-- Branch equation: doTopic on a failed call. -/
theorem doTopic_err (edge : EdgeCall) (s : GraphState)
    (h : strTruthy s.topic = true)
    (h1 : (invokeTool edge (topicNewsCall (s.topic.getD "") (s.max.getD 10))).ok = false) :
    doTopic edge s =
      ({ s with final := some (errorPayload (invokeTool edge (topicNewsCall (s.topic.getD "") (s.max.getD 10))).error) },
       [topicNewsCall (s.topic.getD "") (s.max.getD 10)]) := by
  simp [doTopic, h, h1]

/-- Branch equation: doHistory on a successful call. -/
theorem doHistory_ok (edge : EdgeCall) (s : GraphState)
    (h1 : (invokeTool edge (onThisDayCall s.dateISO)).ok = true) :
    doHistory edge s =
      ({ s with historyEvents := (invokeTool edge (onThisDayCall s.dateISO)).result,
                final := (invokeTool edge (onThisDayCall s.dateISO)).result },
       [onThisDayCall s.dateISO]) := by
  simp [doHistory, h1]

/-- Branch equation: doHistory on a failed call. -/
theorem doHistory_err (edge : EdgeCall) (s : GraphState)
    (h1 : (invokeTool edge (onThisDayCall s.dateISO)).ok = false) :
    doHistory edge s =
      ({ s with final := some (errorPayload (invokeTool edge (onThisDayCall s.dateISO)).error) },
       [onThisDayCall s.dateISO]) := by
  simp [doHistory, h1]

/-- Branch equation: doLocal on a failed call. -/
theorem doLocal_err (edge : EdgeCall) (s : GraphState)
    (h1 : (invokeTool edge (aroundYouCall s.city (s.max.getD 8) s.input.session_id)).ok = false) :
    doLocal edge s =
      ({ s with final := some (errorPayload (invokeTool edge (aroundYouCall s.city (s.max.getD 8) s.input.session_id)).error) },
       [aroundYouCall s.city (s.max.getD 8) s.input.session_id]) := by
  simp [doLocal, h1]

/-- Branch equation: doLocal when the successful result signals a
follow-up. -/
theorem doLocal_followup (edge : EdgeCall) (s : GraphState)
    (h1 : (invokeTool edge (aroundYouCall s.city (s.max.getD 8) s.input.session_id)).ok = true)
    (h2 : resultNeedFollowup (invokeTool edge (aroundYouCall s.city (s.max.getD 8) s.input.session_id)).result = true) :
    doLocal edge s =
      ({ s with followupQuestion := resultQuestion (invokeTool edge (aroundYouCall s.city (s.max.getD 8) s.input.session_id)).result },
       [aroundYouCall s.city (s.max.getD 8) s.input.session_id]) := by
  simp [doLocal, h1, h2]

/-- Branch equation: doLocal passing the result through as final. -/
theorem doLocal_final (edge : EdgeCall) (s : GraphState)
    (h1 : (invokeTool edge (aroundYouCall s.city (s.max.getD 8) s.input.session_id)).ok = true)
    (h2 : resultNeedFollowup (invokeTool edge (aroundYouCall s.city (s.max.getD 8) s.input.session_id)).result = false) :
    doLocal edge s =
      ({ s with final := (invokeTool edge (aroundYouCall s.city (s.max.getD 8) s.input.session_id)).result },
       [aroundYouCall s.city (s.max.getD 8) s.input.session_id]) := by
  simp [doLocal, h1, h2]

/-- Branch equation: doSummarize with a falsy url slot. -/
theorem doSummarize_followup (edge : EdgeCall) (s : GraphState)
    (h : strTruthy s.url = false) :
    doSummarize edge s =
      ({ s with followupQuestion := some "Please share the article link (URL)." }, []) := by
  simp [doSummarize, h]

/-- Branch equation: doSummarize on a successful call. -/
theorem doSummarize_ok (edge : EdgeCall) (s : GraphState)
    (h : strTruthy s.url = true)
    (h1 : (invokeTool edge (summarizeUrlCall (s.url.getD ""))).ok = true) :
    doSummarize edge s =
      ({ s with final := (invokeTool edge (summarizeUrlCall (s.url.getD ""))).result },
       [summarizeUrlCall (s.url.getD "")]) := by
  simp [doSummarize, h, h1]

/-- Branch equation: doSummarize on a failed call. -/
theorem doSummarize_err (edge : EdgeCall) (s : GraphState)
    (h : strTruthy s.url = true)
    (h1 : (invokeTool edge (summarizeUrlCall (s.url.getD ""))).ok = false) :
    doSummarize edge s =
      ({ s with final := some (errorPayload (invokeTool edge (summarizeUrlCall (s.url.getD ""))).error) },
       [summarizeUrlCall (s.url.getD "")]) := by
  simp [doSummarize, h, h1]

/-- Branch equation: doBrief with a falsy topic slot. -/
theorem doBrief_followup (edge : EdgeCall) (llm : LLMGen) (s : GraphState)
    (h : strTruthy s.topic = false) :
    doBrief edge llm s =
      ({ s with followupQuestion := some "Brief on which topic?" }, []) := by
  simp [doBrief, h]

/-- Branch equation: doBrief short-circuiting on a failed topic fetch. -/
theorem doBrief_fetchErr (edge : EdgeCall) (llm : LLMGen) (s : GraphState)
    (h : strTruthy s.topic = true)
    (h1 : (invokeTool edge (topicNewsCall (s.topic.getD "") (s.max.getD 8))).ok = false) :
    doBrief edge llm s =
      ({ s with final := some (errorPayload (invokeTool edge (topicNewsCall (s.topic.getD "") (s.max.getD 8))).error) },
       [topicNewsCall (s.topic.getD "") (s.max.getD 8)]) := by
  simp [doBrief, h, h1]

/-- Branch equation: doBrief running the full fan-out and aggregation
pipeline on a successful topic fetch. -/
theorem doBrief_ok (edge : EdgeCall) (llm : LLMGen) (s : GraphState)
    (h : strTruthy s.topic = true)
    (h1 : (invokeTool edge (topicNewsCall (s.topic.getD "") (s.max.getD 8))).ok = true) :
    doBrief edge llm s =
      ({ s with
          summaries := some (briefSummaries edge
            ((articlesOf (invokeTool edge (topicNewsCall (s.topic.getD "") (s.max.getD 8))).result).take 3)),
          brief := some (jsTrim (llm briefSystemPrompt
            (briefUserPrompt (s.topic.getD "")
              (briefItems (briefSummaries edge
                ((articlesOf (invokeTool edge (topicNewsCall (s.topic.getD "") (s.max.getD 8))).result).take 3)))))),
          final := some (briefFinalJson (s.topic.getD "")
            ((articlesOf (invokeTool edge (topicNewsCall (s.topic.getD "") (s.max.getD 8))).result).take 3)
            (llm briefSystemPrompt
              (briefUserPrompt (s.topic.getD "")
                (briefItems (briefSummaries edge
                  ((articlesOf (invokeTool edge (topicNewsCall (s.topic.getD "") (s.max.getD 8))).result).take 3)))))) },
       topicNewsCall (s.topic.getD "") (s.max.getD 8) ::
         briefSummaryCalls
           ((articlesOf (invokeTool edge (topicNewsCall (s.topic.getD "") (s.max.getD 8))).result).take 3)) := by
  simp [doBrief, h, h1]

/-- A terminal state settles to exactly one outcome: either a truthy
follow-up question with no final payload, or no truthy follow-up and a
present final payload. -/
def exactlyOneOutcome (s : GraphState) : Prop :=
  (strTruthy s.followupQuestion = true ∧ s.final = none)
  ∨ (strTruthy s.followupQuestion = false ∧ ∃ j, s.final = some j)

/-- C6 amended: under the tool-boundary contract (an ok=true envelope
carries a present result, and a local result that signals need_followup
carries a nonempty question), every run terminates with exactly one of a
follow-up or a final payload — never both, never neither.  The original
claim is amended because the LOCAL handler can make a tool call and
still return a follow-up when the tool result signals need_followup. -/
theorem C6_exactly_one_outcome (raw : RawRouterOut) (edge : EdgeCall)
    (llm : LLMGen) (inp : OrchestratorInput)
    (hok : ∀ q e, (edge q e).ok = true → (edge q e).result.isSome = true)
    (hq : ∀ q e, (edge q e).ok = true →
        resultNeedFollowup (edge q e).result = true →
        ∃ question, resultQuestion (edge q e).result = some question
          ∧ question ≠ "") :
    exactlyOneOutcome (runGraph raw edge llm inp).1 := by
  unfold runGraph
  set s1 := routerNode raw (initState inp) with hs1def
  have hfq1 : s1.followupQuestion = none := by simp [hs1def, routerNode, initState]
  have hfin1 : s1.final = none := by simp [hs1def, routerNode, initState]
  cases hroute : routeIntent s1.intent with
  | nHeadlines =>
    simp only [hroute]
    rcases h1 : (invokeTool edge (topHeadlinesCall s1.max)).ok with _ | _
    · rw [doHeadlines_err edge s1 h1]
      exact Or.inr ⟨by rw [hfq1]; rfl, _, rfl⟩
    · rw [doHeadlines_ok edge s1 h1]
      obtain ⟨j, hj⟩ := Option.isSome_iff_exists.mp
        (hok (topHeadlinesCall s1.max).query (topHeadlinesCall s1.max).extra h1)
      exact Or.inr ⟨by rw [hfq1]; rfl, j, hj⟩
  | nTopic =>
    simp only [hroute]
    rcases ht : strTruthy s1.topic with _ | _
    · rw [doTopic_followup edge s1 ht]
      exact Or.inl ⟨rfl, hfin1⟩
    · rcases h1 : (invokeTool edge (topicNewsCall (s1.topic.getD "") (s1.max.getD 10))).ok with _ | _
      · rw [doTopic_err edge s1 ht h1]
        exact Or.inr ⟨by rw [hfq1]; rfl, _, rfl⟩
      · rw [doTopic_ok edge s1 ht h1]
        obtain ⟨j, hj⟩ := Option.isSome_iff_exists.mp
          (hok (topicNewsCall (s1.topic.getD "") (s1.max.getD 10)).query
            (topicNewsCall (s1.topic.getD "") (s1.max.getD 10)).extra h1)
        exact Or.inr ⟨by rw [hfq1]; rfl, j, hj⟩
  | nHistory =>
    simp only [hroute]
    rcases h1 : (invokeTool edge (onThisDayCall s1.dateISO)).ok with _ | _
    · rw [doHistory_err edge s1 h1]
      exact Or.inr ⟨by rw [hfq1]; rfl, _, rfl⟩
    · rw [doHistory_ok edge s1 h1]
      obtain ⟨j, hj⟩ := Option.isSome_iff_exists.mp
        (hok (onThisDayCall s1.dateISO).query (onThisDayCall s1.dateISO).extra h1)
      exact Or.inr ⟨by rw [hfq1]; rfl, j, hj⟩
  | nLocal =>
    simp only [hroute]
    rcases h1 : (invokeTool edge (aroundYouCall s1.city (s1.max.getD 8) s1.input.session_id)).ok with _ | _
    · rw [doLocal_err edge s1 h1]
      exact Or.inr ⟨by rw [hfq1]; rfl, _, rfl⟩
    · rcases h2 : resultNeedFollowup (invokeTool edge (aroundYouCall s1.city (s1.max.getD 8) s1.input.session_id)).result with _ | _
      · rw [doLocal_final edge s1 h1 h2]
        obtain ⟨j, hj⟩ := Option.isSome_iff_exists.mp
          (hok (aroundYouCall s1.city (s1.max.getD 8) s1.input.session_id).query
            (aroundYouCall s1.city (s1.max.getD 8) s1.input.session_id).extra h1)
        exact Or.inr ⟨by rw [hfq1]; rfl, j, hj⟩
      · rw [doLocal_followup edge s1 h1 h2]
        obtain ⟨question, hq1, hq2⟩ :=
          hq (aroundYouCall s1.city (s1.max.getD 8) s1.input.session_id).query
            (aroundYouCall s1.city (s1.max.getD 8) s1.input.session_id).extra h1 h2
        refine Or.inl ⟨?_, hfin1⟩
        show strTruthy (resultQuestion
          (edge (aroundYouCall s1.city (s1.max.getD 8) s1.input.session_id).query
            (aroundYouCall s1.city (s1.max.getD 8) s1.input.session_id).extra).result) = true
        rw [hq1]
        simpa [strTruthy] using hq2
  | nSummarize =>
    simp only [hroute]
    rcases hu : strTruthy s1.url with _ | _
    · rw [doSummarize_followup edge s1 hu]
      exact Or.inl ⟨rfl, hfin1⟩
    · rcases h1 : (invokeTool edge (summarizeUrlCall (s1.url.getD ""))).ok with _ | _
      · rw [doSummarize_err edge s1 hu h1]
        exact Or.inr ⟨by rw [hfq1]; rfl, _, rfl⟩
      · rw [doSummarize_ok edge s1 hu h1]
        obtain ⟨j, hj⟩ := Option.isSome_iff_exists.mp
          (hok (summarizeUrlCall (s1.url.getD "")).query
            (summarizeUrlCall (s1.url.getD "")).extra h1)
        exact Or.inr ⟨by rw [hfq1]; rfl, j, hj⟩
  | nBrief =>
    simp only [hroute]
    rcases ht : strTruthy s1.topic with _ | _
    · rw [doBrief_followup edge llm s1 ht]
      exact Or.inl ⟨rfl, hfin1⟩
    · rcases h1 : (invokeTool edge (topicNewsCall (s1.topic.getD "") (s1.max.getD 8))).ok with _ | _
      · rw [doBrief_fetchErr edge llm s1 ht h1]
        exact Or.inr ⟨by rw [hfq1]; rfl, _, rfl⟩
      · rw [doBrief_ok edge llm s1 ht h1]
        exact Or.inr ⟨by rw [hfq1]; rfl, _, rfl⟩

/-- Concrete instantiation of the exactly-one-outcome theorem: a backend
meeting the tool contract, on a LOCAL run whose result asks a follow-up. -/
theorem C6_exactly_one_outcome_witness :
    exactlyOneOutcome (runGraph c6raw c6edge (fun _ _ => "") c2inp).1 :=
  C6_exactly_one_outcome c6raw c6edge (fun _ _ => "") c2inp
    (fun _ _ _ => rfl)
    (fun _ _ _ _ => ⟨"Which city?", rfl, by decide⟩)

/-- The capped article list of a brief run: the first at most 3 articles
of the topic fetch, in returned order. -/
def briefArts (edge : EdgeCall) (t : String) (mx : Int) : List Json :=
  (articlesOf (invokeTool edge (topicNewsCall t mx)).result).take 3

/-- A BRIEF run with a truthy topic and a successful topic fetch reduces
to the full doBrief pipeline over the capped article list. -/
theorem runGraph_brief (raw : RawRouterOut) (edge : EdgeCall) (llm : LLMGen)
    (inp : OrchestratorInput) (t : String)
    (hi : raw.intent = some .BRIEF) (ht : raw.topic = some t) (hne : t ≠ "")
    (h1 : (invokeTool edge (topicNewsCall t (raw.max.getD 8))).ok = true) :
    runGraph raw edge llm inp =
      ({ routerNode raw (initState inp) with
          summaries := some (briefSummaries edge (briefArts edge t (raw.max.getD 8))),
          brief := some (jsTrim (llm briefSystemPrompt
            (briefUserPrompt t (briefItems (briefSummaries edge (briefArts edge t (raw.max.getD 8))))))),
          final := some (briefFinalJson t (briefArts edge t (raw.max.getD 8))
            (llm briefSystemPrompt
              (briefUserPrompt t (briefItems (briefSummaries edge (briefArts edge t (raw.max.getD 8))))))) },
       topicNewsCall t (raw.max.getD 8) ::
         briefSummaryCalls (briefArts edge t (raw.max.getD 8))) := by
  have hrun : runGraph raw edge llm inp =
      doBrief edge llm (routerNode raw (initState inp)) := by
    simp [runGraph, routerNode, hi, routeIntent]
  set s1 := routerNode raw (initState inp) with hs1
  have hst : s1.topic = some t := by simp [hs1, routerNode, ht]
  have hsm : s1.max = raw.max := by simp [hs1, routerNode]
  have hh : strTruthy s1.topic = true := by rw [hst]; simp [strTruthy, hne]
  have h1x : (invokeTool edge (topicNewsCall (s1.topic.getD "") (s1.max.getD 8))).ok = true := by
    rw [hst, hsm]; simpa using h1
  rw [hrun, doBrief_ok edge llm s1 hh h1x, hst, hsm]
  simp [hst, briefArts, Option.getD_some]
  exact hsm.symm

/-- Every summarize call issued by the brief fan-out stage comes from
one of the capped articles, through its truthy url. -/
theorem briefSummaryCalls_mem (arts : List Json) (c : ToolCallRec)
    (hc : c ∈ briefSummaryCalls arts) :
    ∃ a ∈ arts, ∃ u, articleUrl a = some u ∧ c = summarizeUrlCall u := by
  obtain ⟨a, ha, hmap⟩ := List.mem_filterMap.mp hc
  obtain ⟨u, hu, he⟩ := Option.map_eq_some'.mp hmap
  exact ⟨a, ha, u, hu, he.symm⟩

/-- A filterMap output is strictly shorter than the input as soon as one
element of the input maps to none. -/
theorem length_filterMap_lt_of_none {α β : Type} (f : α → Option β)
    (l : List α) (a : α) (ha : a ∈ l) (hf : f a = none) :
    (l.filterMap f).length < l.length := by
  induction l with
  | nil => cases ha
  | cons x xs ih =>
    rcases List.mem_cons.mp ha with he | hmem
    · rw [he] at hf
      rw [List.filterMap_cons_none hf]
      exact Nat.lt_succ_of_le (List.length_filterMap_le f xs)
    · cases hfx : f x with
      | none =>
        rw [List.filterMap_cons_none hfx]
        exact Nat.lt_succ_of_lt (ih hmem)
      | some b =>
        rw [List.filterMap_cons_some hfx]
        simpa using Nat.succ_lt_succ (ih hmem)

/-- C4: in a brief run, at most the first 3 fetched articles (in
returned order) are carried into summarization and into the final
payload sources list, and every summarize call of the run derives from
one of those capped articles. -/
theorem C4_brief_cap (raw : RawRouterOut) (edge : EdgeCall) (llm : LLMGen)
    (inp : OrchestratorInput) (t : String)
    (hi : raw.intent = some .BRIEF) (ht : raw.topic = some t) (hne : t ≠ "")
    (h1 : (invokeTool edge (topicNewsCall t (raw.max.getD 8))).ok = true) :
    (briefArts edge t (raw.max.getD 8)).length ≤ 3
    ∧ (runGraph raw edge llm inp).2 =
        topicNewsCall t (raw.max.getD 8) ::
          briefSummaryCalls (briefArts edge t (raw.max.getD 8))
    ∧ (runGraph raw edge llm inp).1.summaries =
        some (briefSummaries edge (briefArts edge t (raw.max.getD 8)))
    ∧ (runGraph raw edge llm inp).1.final =
        some (briefFinalJson t (briefArts edge t (raw.max.getD 8))
          (llm briefSystemPrompt (briefUserPrompt t
            (briefItems (briefSummaries edge (briefArts edge t (raw.max.getD 8)))))))
    ∧ ∀ c ∈ briefSummaryCalls (briefArts edge t (raw.max.getD 8)),
        ∃ a ∈ briefArts edge t (raw.max.getD 8), ∃ u,
          articleUrl a = some u ∧ c = summarizeUrlCall u := by
  have hr := runGraph_brief raw edge llm inp t hi ht hne h1
  refine ⟨List.length_take_le _ _, ?_, ?_, ?_,
    fun c hc => briefSummaryCalls_mem _ c hc⟩
  · rw [hr]
  · rw [hr]
  · rw [hr]

/-- A concrete brief backend: the topic fetch for "ai" returns 5
articles with urls u1 through u5; summarizing u2 fails; every other
summarize succeeds. -/
def briefTestEdge : EdgeCall := fun q _ =>
  if q = "latest on ai" then
    { ok := true, result := some (.obj [("articles", .arr
        [.obj [("url", .str "u1")],
         .obj [("url", .str "u2")],
         .obj [("url", .str "u3")],
         .obj [("url", .str "u4")],
         .obj [("url", .str "u5")]])]) }
  else if q = "summarize u2" then { ok := false, error := some "boom" }
  else { ok := true, result := some (.obj [("summary", .str ("S " ++ q))]) }

/-- The Router output of the concrete brief runs. -/
def briefRaw : RawRouterOut := ⟨some .BRIEF, some "ai", none, none, none, none⟩

/-- Concrete instantiation of the brief cap theorem. -/
theorem C4_brief_cap_witness :
    (briefArts briefTestEdge "ai" 8).length ≤ 3
    ∧ (runGraph briefRaw briefTestEdge (fun _ _ => "B") c2inp).2 =
        topicNewsCall "ai" 8 ::
          briefSummaryCalls (briefArts briefTestEdge "ai" 8) :=
  ⟨(C4_brief_cap briefRaw briefTestEdge (fun _ _ => "B") c2inp "ai"
      rfl rfl (by decide) rfl).1,
   (C4_brief_cap briefRaw briefTestEdge (fun _ _ => "B") c2inp "ai"
      rfl rfl (by decide) rfl).2.1⟩

/-- C5 amended: with 5 fetched articles only the first 3 are summarized
(the run trace holds exactly the fetch call and those three summarize
calls); if exactly one of the three summarize calls fails, the failed
sub-call is dropped rather than failing the brief: the summaries state
channel of the run result carries exactly the 2 surviving source
summaries and the brief text is generated from the bullet block built
from those 2 alone, while the final payload itself carries no summaries
list — its sources field keeps all 3 capped articles. -/
theorem C5_brief_partial_success (raw : RawRouterOut) (edge : EdgeCall)
    (llm : LLMGen) (inp : OrchestratorInput) (t : String)
    (a1 a2 a3 a4 a5 : Json) (u1 u2 u3 : String)
    (hi : raw.intent = some .BRIEF) (ht : raw.topic = some t) (hne : t ≠ "")
    (h1 : (invokeTool edge (topicNewsCall t (raw.max.getD 8))).ok = true)
    (harts : articlesOf (invokeTool edge (topicNewsCall t (raw.max.getD 8))).result
      = [a1, a2, a3, a4, a5])
    (hu1 : articleUrl a1 = some u1) (hu2 : articleUrl a2 = some u2)
    (hu3 : articleUrl a3 = some u3) :
    (runGraph raw edge llm inp).2 =
      [topicNewsCall t (raw.max.getD 8), summarizeUrlCall u1,
       summarizeUrlCall u2, summarizeUrlCall u3]
    ∧ ((invokeTool edge (summarizeUrlCall u1)).ok = false →
       (invokeTool edge (summarizeUrlCall u2)).ok = true →
       (invokeTool edge (summarizeUrlCall u3)).ok = true →
       (runGraph raw edge llm inp).1.summaries =
         some [⟨u2, summaryOf (invokeTool edge (summarizeUrlCall u2)).result⟩,
               ⟨u3, summaryOf (invokeTool edge (summarizeUrlCall u3)).result⟩]
       ∧ (runGraph raw edge llm inp).1.brief =
           some (jsTrim (llm briefSystemPrompt (briefUserPrompt t
             (briefItems
               [⟨u2, summaryOf (invokeTool edge (summarizeUrlCall u2)).result⟩,
                ⟨u3, summaryOf (invokeTool edge (summarizeUrlCall u3)).result⟩])))))
    ∧ ((invokeTool edge (summarizeUrlCall u1)).ok = true →
       (invokeTool edge (summarizeUrlCall u2)).ok = false →
       (invokeTool edge (summarizeUrlCall u3)).ok = true →
       (runGraph raw edge llm inp).1.summaries =
         some [⟨u1, summaryOf (invokeTool edge (summarizeUrlCall u1)).result⟩,
               ⟨u3, summaryOf (invokeTool edge (summarizeUrlCall u3)).result⟩]
       ∧ (runGraph raw edge llm inp).1.brief =
           some (jsTrim (llm briefSystemPrompt (briefUserPrompt t
             (briefItems
               [⟨u1, summaryOf (invokeTool edge (summarizeUrlCall u1)).result⟩,
                ⟨u3, summaryOf (invokeTool edge (summarizeUrlCall u3)).result⟩])))))
    ∧ ((invokeTool edge (summarizeUrlCall u1)).ok = true →
       (invokeTool edge (summarizeUrlCall u2)).ok = true →
       (invokeTool edge (summarizeUrlCall u3)).ok = false →
       (runGraph raw edge llm inp).1.summaries =
         some [⟨u1, summaryOf (invokeTool edge (summarizeUrlCall u1)).result⟩,
               ⟨u2, summaryOf (invokeTool edge (summarizeUrlCall u2)).result⟩]
       ∧ (runGraph raw edge llm inp).1.brief =
           some (jsTrim (llm briefSystemPrompt (briefUserPrompt t
             (briefItems
               [⟨u1, summaryOf (invokeTool edge (summarizeUrlCall u1)).result⟩,
                ⟨u2, summaryOf (invokeTool edge (summarizeUrlCall u2)).result⟩])))))
    ∧ ((runGraph raw edge llm inp).1.final.bind (fun j => j.get "summaries")) = none
    ∧ ((runGraph raw edge llm inp).1.final.bind (fun j => j.get "sources")) =
        some (.arr [a1, a2, a3]) := by
  have hr := runGraph_brief raw edge llm inp t hi ht hne h1
  have harts3 : briefArts edge t (raw.max.getD 8) = [a1, a2, a3] := by
    simp [briefArts, harts]
  refine ⟨?_, ?_, ?_, ?_, ?_, ?_⟩
  · rw [hr, harts3]
    simp [briefSummaryCalls, hu1, hu2, hu3]
  · intro hf1 hs2 hs3
    have hsum : briefSummaries edge (briefArts edge t (raw.max.getD 8)) =
        [⟨u2, summaryOf (invokeTool edge (summarizeUrlCall u2)).result⟩,
         ⟨u3, summaryOf (invokeTool edge (summarizeUrlCall u3)).result⟩] := by
      rw [harts3]
      simp [briefSummaries, hu1, hu2, hu3, hf1, hs2, hs3]
    exact ⟨by rw [hr]; simp [hsum], by rw [hr]; simp [hsum]⟩
  · intro hs1 hf2 hs3
    have hsum : briefSummaries edge (briefArts edge t (raw.max.getD 8)) =
        [⟨u1, summaryOf (invokeTool edge (summarizeUrlCall u1)).result⟩,
         ⟨u3, summaryOf (invokeTool edge (summarizeUrlCall u3)).result⟩] := by
      rw [harts3]
      simp [briefSummaries, hu1, hu2, hu3, hs1, hf2, hs3]
    exact ⟨by rw [hr]; simp [hsum], by rw [hr]; simp [hsum]⟩
  · intro hs1 hs2 hf3
    have hsum : briefSummaries edge (briefArts edge t (raw.max.getD 8)) =
        [⟨u1, summaryOf (invokeTool edge (summarizeUrlCall u1)).result⟩,
         ⟨u2, summaryOf (invokeTool edge (summarizeUrlCall u2)).result⟩] := by
      rw [harts3]
      simp [briefSummaries, hu1, hu2, hu3, hs1, hs2, hf3]
    exact ⟨by rw [hr]; simp [hsum], by rw [hr]; simp [hsum]⟩
  · rw [hr]
    rfl
  · rw [hr, harts3]
    rfl

/-- An article JSON object carrying only a url field. -/
def artU (u : String) : Json := .obj [("url", .str u)]

/-- Concrete instantiation of the partial-success theorem: 5 articles
fetched, summarize of u2 fails, exactly the u1 and u3 summaries survive
and only the first three articles are summarized. -/
theorem C5_brief_partial_success_witness :
    (runGraph briefRaw briefTestEdge (fun _ _ => "B") c2inp).1.summaries =
      some [⟨"u1", summaryOf (invokeTool briefTestEdge (summarizeUrlCall "u1")).result⟩,
            ⟨"u3", summaryOf (invokeTool briefTestEdge (summarizeUrlCall "u3")).result⟩]
    ∧ (runGraph briefRaw briefTestEdge (fun _ _ => "B") c2inp).2 =
      [topicNewsCall "ai" 8, summarizeUrlCall "u1",
       summarizeUrlCall "u2", summarizeUrlCall "u3"] :=
  ⟨((C5_brief_partial_success briefRaw briefTestEdge (fun _ _ => "B") c2inp "ai"
      (artU "u1") (artU "u2") (artU "u3") (artU "u4") (artU "u5")
      "u1" "u2" "u3" rfl rfl (by decide) rfl rfl rfl rfl rfl).2.2.1
      rfl rfl rfl).1,
   (C5_brief_partial_success briefRaw briefTestEdge (fun _ _ => "B") c2inp "ai"
      (artU "u1") (artU "u2") (artU "u3") (artU "u4") (artU "u5")
      "u1" "u2" "u3" rfl rfl (by decide) rfl rfl rfl rfl rfl).1⟩

/-- C5 fails as literally stated: at a concrete brief run where the
topic fetch returns 5 articles and exactly one of the three summarize
calls fails, the final payload is the object type/topic/sources/brief
with no summaries field at all, and its sources list still holds all 3
capped articles; the 2 surviving source summaries live only in the
summaries state channel of the run result. -/
theorem C5_counterexample :
    ((runGraph briefRaw briefTestEdge (fun _ _ => "B") c2inp).1.final.bind
        (fun j => j.get "summaries")) = none
    ∧ ((runGraph briefRaw briefTestEdge (fun _ _ => "B") c2inp).1.final.bind
        (fun j => j.get "sources")) =
          some (.arr [artU "u1", artU "u2", artU "u3"])
    ∧ (invokeTool briefTestEdge (summarizeUrlCall "u2")).ok = false
    ∧ (runGraph briefRaw briefTestEdge (fun _ _ => "B") c2inp).1.summaries =
        some [⟨"u1", "S summarize u1"⟩, ⟨"u3", "S summarize u3"⟩] :=
  ⟨rfl, rfl, rfl, rfl⟩

/-- C10: the sources field of a brief final payload is exactly the first
up-to-3 fetched articles unchanged; the surviving summaries list is
never longer, and it is strictly shorter as soon as one capped article
has no truthy url or a failed summarize call — so the sources list can
be strictly longer than the summaries actually used. -/
theorem C10_brief_sources_unfiltered (raw : RawRouterOut) (edge : EdgeCall)
    (llm : LLMGen) (inp : OrchestratorInput) (t : String)
    (hi : raw.intent = some .BRIEF) (ht : raw.topic = some t) (hne : t ≠ "")
    (h1 : (invokeTool edge (topicNewsCall t (raw.max.getD 8))).ok = true) :
    (runGraph raw edge llm inp).1.final =
        some (briefFinalJson t (briefArts edge t (raw.max.getD 8))
          (llm briefSystemPrompt (briefUserPrompt t
            (briefItems (briefSummaries edge (briefArts edge t (raw.max.getD 8)))))))
    ∧ (briefSummaries edge (briefArts edge t (raw.max.getD 8))).length ≤
        (briefArts edge t (raw.max.getD 8)).length
    ∧ (∀ a, a ∈ briefArts edge t (raw.max.getD 8) →
        (articleUrl a = none ∨
          (∃ u, articleUrl a = some u
            ∧ (invokeTool edge (summarizeUrlCall u)).ok = false)) →
        (briefSummaries edge (briefArts edge t (raw.max.getD 8))).length <
          (briefArts edge t (raw.max.getD 8)).length) := by
  have hr := runGraph_brief raw edge llm inp t hi ht hne h1
  refine ⟨by rw [hr], List.length_filterMap_le _ _, ?_⟩
  intro a ha hcase
  refine length_filterMap_lt_of_none _ _ a ha ?_
  rcases hcase with hnone | ⟨u, hu, hok2⟩
  · simp [hnone]
  · simp [hu, hok2]

/-- Concrete instantiation of the unfiltered-sources theorem: the failed
summarize call for u2 makes the summaries list strictly shorter than the
sources list. -/
theorem C10_brief_sources_unfiltered_witness :
    (briefSummaries briefTestEdge (briefArts briefTestEdge "ai" 8)).length <
      (briefArts briefTestEdge "ai" 8).length :=
  (C10_brief_sources_unfiltered briefRaw briefTestEdge (fun _ _ => "B") c2inp
      "ai" rfl rfl (by decide) rfl).2.2
    (artU "u2")
    (List.mem_cons_of_mem _ (List.mem_cons_self _ _))
    (Or.inr ⟨"u2", rfl, rfl⟩)

/-- The generation capability of the C8 counterexample run: content with
surrounding whitespace. -/
def c8llm : LLMGen := fun _ _ => "  B  "

/-- C8 fails on the code in its trim part: the trimmed text goes only to
the brief state channel, while the final payload brief field carries the
raw generation output with its surrounding whitespace intact. -/
theorem C8_counterexample :
    (runGraph briefRaw briefTestEdge c8llm c2inp).1.brief = some "B"
    ∧ ((runGraph briefRaw briefTestEdge c8llm c2inp).1.final.bind
        (fun j => j.get "brief")) = some (.str "  B  ")
    ∧ ("  B  " : String) ≠ "B" :=
  ⟨rfl, rfl, by decide⟩

/-- C8 amended: the concatenated bullet block is truncated to at most
15000 characters before the generation call; the trimmed generation
output is stored in the brief state channel, while the final payload
(which also carries the source list) holds the untrimmed output in its
brief field. -/
theorem C8_brief_truncation_trim (raw : RawRouterOut) (edge : EdgeCall)
    (llm : LLMGen) (inp : OrchestratorInput) (t : String)
    (hi : raw.intent = some .BRIEF) (ht : raw.topic = some t) (hne : t ≠ "")
    (h1 : (invokeTool edge (topicNewsCall t (raw.max.getD 8))).ok = true) :
    (briefItems (briefSummaries edge (briefArts edge t (raw.max.getD 8)))).length ≤ 15000
    ∧ (runGraph raw edge llm inp).1.brief =
        some (jsTrim (llm briefSystemPrompt (briefUserPrompt t
          (briefItems (briefSummaries edge (briefArts edge t (raw.max.getD 8)))))))
    ∧ ((runGraph raw edge llm inp).1.final.bind (fun j => j.get "brief")) =
        some (.str (llm briefSystemPrompt (briefUserPrompt t
          (briefItems (briefSummaries edge (briefArts edge t (raw.max.getD 8))))))) := by
  have hr := runGraph_brief raw edge llm inp t hi ht hne h1
  refine ⟨List.length_take_le _ _, by rw [hr], by rw [hr]; rfl⟩

/-- Concrete instantiation of the truncation-and-trim theorem. -/
theorem C8_brief_truncation_trim_witness :
    (briefItems (briefSummaries briefTestEdge (briefArts briefTestEdge "ai" 8))).length
      ≤ 15000
    ∧ (runGraph briefRaw briefTestEdge c8llm c2inp).1.brief =
        some (jsTrim (c8llm briefSystemPrompt (briefUserPrompt "ai"
          (briefItems (briefSummaries briefTestEdge (briefArts briefTestEdge "ai" 8)))))) :=
  ⟨(C8_brief_truncation_trim briefRaw briefTestEdge c8llm c2inp "ai"
      rfl rfl (by decide) rfl).1,
   (C8_brief_truncation_trim briefRaw briefTestEdge c8llm c2inp "ai"
      rfl rfl (by decide) rfl).2.1⟩
